import Mathlib

set_option maxRecDepth 16384

/-!
Verification development for the hutshub-israel backend (`src/main.py`).

The Python source is shallowly embedded: Mongo documents become typed Lean
structures, Mongo query dictionaries become a typed query record plus a small
filter AST, datetimes become integers (dates are encoded as
`year*10000 + month*100 + day`, which is strictly monotone in chronological
order for valid dates), and floats become rationals.  Regular-expression
matching and the geodesic distance computed by the backing store are external
collaborators, so filter evaluation is parametrised by a regex oracle and a
distance function.
-/

/-- First-match association-list lookup; models Python `dict` access
(`k in d`, `d[k]`, `d.get(k)`) for dictionaries with unique keys. -/
def assocLookup {α : Type} (k : String) : List (String × α) → Option α
  | [] => none
  | (k2, v) :: rest => if k2 = k then some v else assocLookup k rest

/-! ### String primitives

The Python string operations the handlers use (`strip`, `split`, `lower`,
`upper`, `startswith`, digit tests) are modeled structurally over the
character list of a string, so that every definition in this file evaluates
on concrete inputs. -/

/-- The whitespace characters stripped by Python `str.strip()`. -/
def isSpaceChar (c : Char) : Bool :=
  c = ' ' || c = '\t' || c = '\n' || c = '\r' || c = '\x0b' || c = '\x0c'

/-- Python `s.strip()`. -/
def pyStrip (s : String) : String :=
  ⟨((s.data.dropWhile isSpaceChar).reverse.dropWhile isSpaceChar).reverse⟩

/-- Split a character list on a separator character; an empty input gives a
single empty piece, as Python `"".split(sep)` gives `[""]`. -/
def splitOnChar (sep : Char) (cs : List Char) : List (List Char) :=
  match cs with
  | [] => [[]]
  | c :: rest =>
    match splitOnChar sep rest with
    | [] => [[]]
    | h :: t => if c = sep then [] :: h :: t else (c :: h) :: t

/-- Python `s.split(sep)` for a one-character separator. -/
def pySplit (sep : Char) (s : String) : List String :=
  (splitOnChar sep s.data).map fun cs => ⟨cs⟩

/-- ASCII lowercasing, a no-op on other characters (Python `str.lower()` on
the language/mode codes appearing here). -/
def pyLowerChar (c : Char) : Char :=
  if 'A' ≤ c && c ≤ 'Z' then Char.ofNat (c.toNat + 32) else c

def pyLower (s : String) : String := ⟨s.data.map pyLowerChar⟩

/-- ASCII uppercasing (Python `str.upper()` on country codes). -/
def pyUpperChar (c : Char) : Char :=
  if 'a' ≤ c && c ≤ 'z' then Char.ofNat (c.toNat - 32) else c

def pyUpper (s : String) : String := ⟨s.data.map pyUpperChar⟩

def isDigitChar (c : Char) : Bool := '0' ≤ c && c ≤ '9'

def strAll (f : Char → Bool) (s : String) : Bool := s.data.all f

def strLen (s : String) : ℕ := s.data.length

/-- Whether the first character of `s` is `c` (Python `s.startswith` for a
one-character needle). -/
def headIs (c : Char) (s : String) : Bool :=
  match s.data with
  | [] => false
  | c2 :: _ => c2 = c

/-- Drop the first character (the sign position). -/
def strDrop1 (s : String) : String := ⟨s.data.drop 1⟩

def joinChars (sep : List Char) : List (List Char) → List Char
  | [] => []
  | [x] => x
  | x :: y :: rest => x ++ sep ++ joinChars sep (y :: rest)

/-! ## Language fallback resolver (`pick_lang_value`, main.py:38-53) -/

/-- A JSON-ish payload stored under a localized field: `None`, a string, or a
list of strings (amenity lists). -/
inductive Payload
  | null
  | str (s : String)
  | list (l : List String)
deriving DecidableEq, Repr

/-- Python truthiness of a payload: `None`, `""` and `[]` are falsy. -/
def truthy : Payload → Bool
  | .null => false
  | .str s => s ≠ ""
  | .list l => l ≠ []

/-- A localized value: either a plain scalar/list payload or a per-language
mapping (a Python dict from language code to payload, in insertion order). -/
inductive LocValue
  | scalar (p : Payload)
  | mapping (entries : List (String × Payload))
deriving DecidableEq, Repr

def SUPPORTED_LANGS : List String := ["en", "he"]

def DEFAULT_LANG : String := "en"

/-- The `for v in value.values(): if v: return v` / `return None` tail of
`pick_lang_value` (main.py:49-52). -/
def firstTruthy : List (String × Payload) → Payload
  | [] => .null
  | (_, v) :: rest => if truthy v then v else firstTruthy rest

/-- `pick_lang_value` (main.py:38-53): resolve a localized value for a
requested language.  Dict case: requested language if present and truthy,
else the default language if present and truthy, else the first truthy value
in iteration order, else `None`.  Non-dict values are returned unchanged. -/
def pick_lang_value (value : LocValue) (lang : String) : Payload :=
  match value with
  | .scalar p => p
  | .mapping m =>
    match assocLookup lang m with
    | some v =>
      if truthy v then v
      else
        match assocLookup DEFAULT_LANG m with
        | some w => if truthy w then w else firstTruthy m
        | none => firstTruthy m
    | none =>
      match assocLookup DEFAULT_LANG m with
      | some w => if truthy w then w else firstTruthy m
      | none => firstTruthy m

/-! ## Safe date parsing (`parse_date_safe`, main.py:70-81)

`parse_date_safe` accepts `YYYY-MM-DD` strings (the format named in its own
docstring; `datetime.fromisoformat` / `strptime("%Y-%m-%d")`), validating the
calendar ranges, and returns `None` on anything else.  The embedding encodes
the resulting UTC-start-of-day datetime as `y*10000 + m*100 + d`. -/

def isLeapYear (y : ℕ) : Bool := y % 4 = 0 && (y % 100 ≠ 0 || y % 400 = 0)

def daysInMonth (y m : ℕ) : ℕ :=
  if m = 1 ∨ m = 3 ∨ m = 5 ∨ m = 7 ∨ m = 8 ∨ m = 10 ∨ m = 12 then 31
  else if m = 4 ∨ m = 6 ∨ m = 9 ∨ m = 11 then 30
  else if isLeapYear y then 29 else 28

/-- Digits-only string to a natural number (caller checks the digit shape). -/
def digitsToNat (s : String) : ℕ :=
  s.data.foldl (fun n c => n * 10 + (c.toNat - 48)) 0

/-- Parse a `YYYY-MM-DD` date with calendar validation. -/
def parseYMD (s : String) : Option (ℕ × ℕ × ℕ) :=
  match pySplit '-' s with
  | [ys, ms, ds] =>
    if strLen ys = 4 && strAll isDigitChar ys &&
       decide (1 ≤ strLen ms) && decide (strLen ms ≤ 2) && strAll isDigitChar ms &&
       decide (1 ≤ strLen ds) && decide (strLen ds ≤ 2) && strAll isDigitChar ds then
      let y := digitsToNat ys
      let m := digitsToNat ms
      let d := digitsToNat ds
      if 1 ≤ m ∧ m ≤ 12 ∧ 1 ≤ d ∧ d ≤ daysInMonth y m then some (y, m, d)
      else none
    else none
  | _ => none

/-- `parse_date_safe` (main.py:70-81): empty or unparseable input yields
`None`; a valid date yields its encoded datetime. -/
def parse_date_safe (s : String) : Option ℤ :=
  if s = "" then none
  else
    match parseYMD s with
    | some (y, m, d) => some ((y : ℤ) * 10000 + (m : ℤ) * 100 + (d : ℤ))
    | none => none

/-! ## Python numeric parsing used by the request handlers -/

/-- Python `int(s)` on a string: optional sign, at least one digit,
surrounding whitespace stripped; `None` models a raised `ValueError`. -/
def pyInt (s : String) : Option ℤ :=
  let t := pyStrip s
  let (sign, u) : ℤ × String :=
    if headIs '-' t then (-1, strDrop1 t)
    else if headIs '+' t then (1, strDrop1 t)
    else (1, t)
  if u ≠ "" && strAll isDigitChar u then some (sign * (digitsToNat u : ℤ)) else none

/-- Python `float(s)` restricted to plain decimal literals
(`[sign] digits [. digits]`, at least one digit); `None` models `ValueError`. -/
def pyFloat (s : String) : Option ℚ :=
  let t := pyStrip s
  let (sign, u) : ℚ × String :=
    if headIs '-' t then (-1, strDrop1 t)
    else if headIs '+' t then (1, strDrop1 t)
    else (1, t)
  match pySplit '.' u with
  | [i] =>
    if i ≠ "" && strAll isDigitChar i then some (sign * (digitsToNat i : ℚ)) else none
  | [i, f] =>
    if (i ≠ "" || f ≠ "") && strAll isDigitChar i && strAll isDigitChar f then
      some (sign * ((digitsToNat i : ℚ) + (digitsToNat f : ℚ) / ((10 : ℚ) ^ strLen f)))
    else none
  | _ => none

/-- Python `int(x)` on a float: truncation toward zero.  Rationals are
stored normalised with a positive denominator, so this is the
toward-zero division of numerator by denominator. -/
def int_trunc (q : ℚ) : ℤ := q.num.tdiv q.den

/-! ## Bookings and the availability resolver
(`get_booked_property_ids`, main.py:84-102) -/

/-- A booking document.  `status = none` models both a missing `status` field
and a stored null (Mongo `$in` with `null` matches either).  The source's
`end` field is called `endDate` (`end` is a Lean keyword). -/
structure Booking where
  property_id : ℕ
  start : ℤ
  endDate : ℤ
  status : Option String
deriving DecidableEq, Repr

/-- `get_booked_property_ids` (main.py:84-102): distinct property ids having
a booking that overlaps `[start_dt, end_dt]` (overlap test
`booking.start <= end_dt AND booking.end >= start_dt`), restricted to the
allowed statuses when that list is non-empty (`if allowed_statuses:`).
Returns `[]` when either bound is `None`. -/
def get_booked_property_ids (bookingsCol : List Booking)
    (start_dt end_dt : Option ℤ) (allowed_statuses : List (Option String)) :
    List ℕ :=
  match start_dt, end_dt with
  | some s, some e =>
    let matched := bookingsCol.filter fun b =>
      decide (b.start ≤ e) && decide (s ≤ b.endDate) &&
      (if allowed_statuses = [] then true else decide (b.status ∈ allowed_statuses))
    (matched.map (fun b => b.property_id)).dedup
  | _, _ => []

/-! ## The Mongo query model

`list_properties` builds a Mongo filter dictionary.  The embedding gives that
dictionary a typed shape: the top-level keys the handler can set become
fields of `MQuery`, and the clause values become a small filter AST
(`MFilter`).  Every `$regex` the handler builds carries `$options: "i"`, so
the flag is left implicit in the AST. -/

/-- A regex pattern as the handler builds it: either `re.escape`d user text
or one of the fixed raw patterns from `_cat_filter`. -/
inductive RegexPat
  | escaped (lit : String)
  | raw (pat : String)
deriving DecidableEq, Repr

/-- Filter clauses appearing inside `$or` / `$and` lists. -/
inductive MFilter
  | orF (fs : List MFilter)
  | regexField (field : String) (pat : RegexPat)
  | geQ (field : String) (v : ℚ)
  | leQ (field : String) (v : ℚ)
deriving Repr

/-- A point in GeoJSON order: (longitude, latitude). -/
abbrev GeoPoint := ℚ × ℚ

/-- The two lowerings of the geo constraint: `$near`/`$maxDistance` (meters)
and `$geoWithin`/`$centerSphere` (angular radius in radians). -/
inductive GeoClause
  | near (coords : GeoPoint) (maxDistance : ℤ)
  | withinSphere (coords : GeoPoint) (angular : ℚ)
deriving DecidableEq, Repr

/-- The typed shape of the filter dictionary built by `list_properties`:
each field is one of the top-level keys the handler can set. -/
structure MQuery where
  /-- `query["$or"]` — the free-text clause (main.py:263). -/
  orClause : Option (List MFilter) := none
  /-- `query["$and"]` — region, amenity and category clauses, in append
  order (main.py:275, 315, 350-352). -/
  andClauses : List MFilter := []
  /-- `query["maxGuests"] = {"$gte": g}` (main.py:287). -/
  maxGuestsGte : Option ℤ := none
  /-- `query["price"]["$gte"]` (main.py:295). -/
  priceGte : Option ℚ := none
  /-- `query["price"]["$lte"]` (main.py:300). -/
  priceLte : Option ℚ := none
  /-- `query["location.geo"]` (main.py:329, 369). -/
  geo : Option GeoClause := none
  /-- `query["_id"] = {"$nin": booked_ids}` (main.py:358). -/
  idNin : Option (List ℕ) := none

/-- A property document as the filter sees it: string-valued fields (single
strings or arrays) and numeric fields are keyed by their dotted Mongo path;
`geo` holds `location.geo` coordinates. -/
structure PropDoc where
  id : ℕ
  strFields : List (String × List String) := []
  numFields : List (String × ℚ) := []
  geo : Option GeoPoint := none

/-- Evaluate one filter clause against a document.  `rx` is the regex-match
oracle (a Mongo `$regex` on an array field matches when some element
matches). -/
def evalFilter (rx : RegexPat → String → Bool) (d : PropDoc) : MFilter → Bool
  | .orF fs => fs.attach.any fun f => evalFilter rx d f.1
  | .regexField fld pat => ((assocLookup fld d.strFields).getD []).any (rx pat)
  | .geQ fld v =>
    match assocLookup fld d.numFields with
    | some x => decide (v ≤ x)
    | none => false
  | .leQ fld v =>
    match assocLookup fld d.numFields with
    | some x => decide (x ≤ v)
    | none => false
decreasing_by
  have := List.sizeOf_lt_of_mem f.2
  simp only [MFilter.orF.sizeOf_spec]
  omega

/-- `EARTH_RADIUS_M` (main.py:35). -/
def EARTH_RADIUS_M : ℚ := 6378137

/-- Geo clause semantics.  `dist` is the collaborating store's geodesic
distance in meters; `$near`+`$maxDistance` bounds the linear distance,
`$centerSphere` bounds the angular distance `dist / EARTH_RADIUS_M`.
A document with no geo point matches neither. -/
def evalGeo (dist : GeoPoint → GeoPoint → ℚ) (dgeo : Option GeoPoint) :
    GeoClause → Bool
  | .near c m =>
    match dgeo with
    | some p => decide (dist c p ≤ (m : ℚ))
    | none => false
  | .withinSphere c a =>
    match dgeo with
    | some p => decide (dist c p / EARTH_RADIUS_M ≤ a)
    | none => false

/-- Evaluate the whole filter dictionary against a document (conjunction of
all present top-level clauses, as in Mongo). -/
def evalQuery (dist : GeoPoint → GeoPoint → ℚ) (rx : RegexPat → String → Bool)
    (q : MQuery) (d : PropDoc) : Bool :=
  (match q.orClause with
   | some fs => fs.any (evalFilter rx d)
   | none => true) &&
  q.andClauses.all (evalFilter rx d) &&
  (match q.maxGuestsGte with
   | some g =>
     match assocLookup "maxGuests" d.numFields with
     | some x => decide ((g : ℚ) ≤ x)
     | none => false
   | none => true) &&
  (match q.priceGte with
   | some v =>
     match assocLookup "price" d.numFields with
     | some x => decide (v ≤ x)
     | none => false
   | none => true) &&
  (match q.priceLte with
   | some v =>
     match assocLookup "price" d.numFields with
     | some x => decide (x ≤ v)
     | none => false
   | none => true) &&
  (match q.geo with
   | some gc => evalGeo dist d.geo gc
   | none => true) &&
  (match q.idNin with
   | some l => decide (d.id ∉ l)
   | none => true)

/-- `col.count_documents(q)` over a point-in-time catalog. -/
def count_documents (dist : GeoPoint → GeoPoint → ℚ)
    (rx : RegexPat → String → Bool) (q : MQuery) (catalog : List PropDoc) : ℕ :=
  (catalog.filter (evalQuery dist rx q)).length

/-! ## Category classifier (`_cat_filter`, main.py:213-250) -/

/-- `_cat_filter` (main.py:213-250): map a category identifier (stripped and
lowercased) to a Mongo filter, or to no constraint for empty/unrecognized
ids.  Patterns are the source's raw regexes; every one is case-insensitive. -/
def _cat_filter (luxury_min_price : ℚ) (cat_id : String) : Option MFilter :=
  let c := pyLower (pyStrip cat_id)
  if c = "" then none
  else if c = "jacuzzi" then
    some (.orF [.regexField "amenities.en" (.raw "jacuzz?i"),
                .regexField "amenities.he" (.raw "ג.?קוזי")])
  else if c = "view" then
    some (.orF [.regexField "amenities.en" (.raw "(view|mountain|sea\\s*view|scenic)"),
                .regexField "amenities.he" (.raw "נוף")])
  else if c = "dogs" then
    some (.orF [.regexField "amenities.en" (.raw "(dog|pet)"),
                .regexField "amenities.he" (.raw "(חיות|כלב)")])
  else if c = "family" then some (.geQ "maxGuests" 4)
  else if c = "romantic" then some (.leQ "maxGuests" 2)
  else if c = "luxury" then
    some (.orF [.geQ "price" luxury_min_price,
                .orF [.regexField "amenities.en" (.raw "(jacuzz?i|pool|spa)"),
                      .regexField "amenities.he" (.raw "(ג.?קוזי|בריכה|ספא)")]])
  else none

/-- The category clauses appended to `query["$and"]` (main.py:347-352):
unrecognized ids are dropped (`if f`), `catMode == "all"` appends each
recognized filter as its own conjunct, any other mode appends one `$or`
of them; no clause at all when nothing was recognized. -/
def catAndClauses (luxury_min_price : ℚ) (cat_ids : List String)
    (cat_mode : String) : List MFilter :=
  let cat_filters := cat_ids.filterMap (_cat_filter luxury_min_price)
  if cat_filters.isEmpty then []
  else if cat_mode = "all" then cat_filters else [.orF cat_filters]

/-! ## The listing query compiler (`list_properties`, main.py:181-408)

The handler is embedded as a pure compiler from request parameters (plus the
bookings collection) to either a 400 validation error or a `ListPlan`: the
filter dictionary used for the item fetch, the count-safe variant of it, the
`$near` flag, the sort specification and the pagination window.  Executing
the plan against a catalog is `evalQuery`/`count_documents` above.
`limit`/`offset`/`radiusKm`/`luxuryMinPrice` arrive already number-parsed
(a malformed value for those surfaces as a server error in Flask before the
handler logic modeled here runs). -/

/-- An aborted request: HTTP status code plus description. -/
structure ApiError where
  code : ℕ
  description : String
deriving DecidableEq, Repr

/-- Request parameters of `GET /api/properties`, with the handler's
defaults for absent parameters (absent string parameters are `""`). -/
structure ListParams where
  q : String := ""
  start : String := ""
  endDate : String := ""
  guests : String := ""
  minPrice : String := ""
  maxPrice : String := ""
  amenities : String := ""
  region : String := ""
  category : String := ""
  categories : String := ""
  catMode : String := ""
  near : String := ""
  radiusKm : ℚ := 0
  luxuryMinPrice : ℚ := 700
  sort : String := "new"
  limit : ℤ := 30
  offset : ℤ := 0
deriving DecidableEq, Repr

/-- The values produced by the handler's validating parses. -/
structure VParams where
  start_dt : Option ℤ
  end_dt : Option ℤ
  g : Option ℤ
  minP : Option ℚ
  maxP : Option ℚ
deriving DecidableEq, Repr

/-- `start_dt = parse_date_safe(start) if start else None` (main.py:253),
with `start = (request.args.get("start") or "").strip() or None`
(main.py:199). -/
def reqStartDt (p : ListParams) : Option ℤ :=
  if pyStrip p.start ≠ "" then parse_date_safe (pyStrip p.start) else none

/-- `end_dt = parse_date_safe(end) if end else None` (main.py:254). -/
def reqEndDt (p : ListParams) : Option ℤ :=
  if pyStrip p.endDate ≠ "" then parse_date_safe (pyStrip p.endDate) else none

/-- The aborting parses of `list_properties`, in source order: the
end-before-start check (main.py:253-256), `guests` (main.py:284-289),
`minPrice` (main.py:293-297), `maxPrice` (main.py:298-302). -/
def validateParams (p : ListParams) : Except ApiError VParams :=
  let dateBad :=
    match reqStartDt p, reqEndDt p with
    | some s, some e => decide (e < s)
    | _, _ => false
  if dateBad then .error ⟨400, "end date must be >= start date"⟩
  else if p.guests ≠ "" ∧ (pyInt p.guests).isNone then
    .error ⟨400, "invalid guests value"⟩
  else if p.minPrice ≠ "" ∧ (pyFloat p.minPrice).isNone then
    .error ⟨400, "invalid minPrice"⟩
  else if p.maxPrice ≠ "" ∧ (pyFloat p.maxPrice).isNone then
    .error ⟨400, "invalid maxPrice"⟩
  else
    .ok { start_dt := reqStartDt p
          end_dt := reqEndDt p
          g := if p.guests ≠ "" then pyInt p.guests else none
          minP := if p.minPrice ≠ "" then pyFloat p.minPrice else none
          maxP := if p.maxPrice ≠ "" then pyFloat p.maxPrice else none }

/-- `lat, lon = map(float, near.split(","))` with the GeoJSON swap
`coords_for_within = [lon, lat]` (main.py:326-328); `none` models the
swallowed exception for malformed input. -/
def parseNear (s : String) : Option GeoPoint :=
  match pySplit ',' s with
  | [a, b] =>
    match pyFloat a, pyFloat b with
    | some lat, some lon => some (lon, lat)
    | _, _ => none
  | _ => none

/-- The count-safe query (main.py:381-396): a deep copy of the item query
with a `$near` geo clause swapped for `$geoWithin`/`$centerSphere` at angular
radius `maxDistance / EARTH_RADIUS_M`; queries without a `$near` clause are
copied unchanged.  (The source's fallback for a malformed `$near` value is
unrepresentable here: the handler only ever builds well-formed ones.) -/
def swap_near_for_count (q : MQuery) : MQuery :=
  match q.geo with
  | some (.near c m) => { q with geo := some (.withinSphere c ((m : ℚ) / EARTH_RADIUS_M)) }
  | _ => q

/-- The compiled output of `list_properties`: the item-fetch filter, the
count-safe filter, whether `$near` ordering is in effect, the sort
specification (field, pymongo direction) and the pagination window. -/
structure ListPlan where
  query : MQuery
  query_for_count : MQuery
  use_near : Bool
  sort_spec : List (String × ℤ)
  limit : ℤ
  offset : ℤ

instance : Inhabited ListPlan :=
  ⟨{ query := {}, query_for_count := {}, use_near := false,
     sort_spec := [], limit := 0, offset := 0 }⟩

/-- The query- and plan-building part of `list_properties` (main.py:191-405),
given the validated values.  Field by field:
* `orClause` — free-text search over the eleven title/location/region paths
  (main.py:260-270);
* `andClauses` — region clause (main.py:272-281), then the amenities clause
  (main.py:306-315), then the category clauses (main.py:340-352);
* `maxGuestsGte`/`priceGte`/`priceLte` — validated numeric filters;
* geo — `$near` at `int(radius_km * 1000)` meters when `near` parses and
  `radiusKm > 0` (main.py:317-338), replaced by `$geoWithin` at angular
  radius `max_m / EARTH_RADIUS_M` when a price sort is requested
  (main.py:367-374);
* `idNin` — ids with an overlapping active booking (main.py:354-358);
* `sort_spec` — `_id` descending, or price with `_id` tie-break
  (main.py:360-365); `query_for_count` — the `$near`-to-`$geoWithin` swap
  (main.py:381-396); `limit`/`offset` clamped (main.py:194-195). -/
def buildPlan (bookingsCol : List Booking) (p : ListParams) (v : VParams) :
    ListPlan :=
  let limit := min (max p.limit 1) 100
  let offset := max p.offset 0
  let q_raw := pyStrip p.q
  let orClause : Option (List MFilter) :=
    if q_raw ≠ "" then
      some [.regexField "title.en" (.escaped q_raw),
            .regexField "title.he" (.escaped q_raw),
            .regexField "title" (.escaped q_raw),
            .regexField "location.en" (.escaped q_raw),
            .regexField "location.he" (.escaped q_raw),
            .regexField "region.en" (.escaped q_raw),
            .regexField "region.he" (.escaped q_raw),
            .regexField "location.displayName.en" (.escaped q_raw),
            .regexField "location.displayName.he" (.escaped q_raw),
            .regexField "location.displayName" (.escaped q_raw)]
    else none
  let regionS := pyStrip p.region
  let andRegion : List MFilter :=
    if regionS ≠ "" then
      [.orF [.regexField "region.en" (.escaped regionS),
             .regexField "region.he" (.escaped regionS),
             .regexField "location.displayName.en" (.escaped regionS),
             .regexField "location.displayName.he" (.escaped regionS),
             .regexField "location.displayName" (.escaped regionS)]]
    else []
  let amen_list := ((pySplit ',' p.amenities).map pyStrip).filter (· ≠ "")
  let andAmen : List MFilter :=
    if p.amenities ≠ "" ∧ amen_list ≠ [] then
      [.orF (amen_list.flatMap fun a =>
        [.regexField "amenities.en" (.escaped a),
         .regexField "amenities.he" (.escaped a)])]
    else []
  let geoInfo : Option (GeoPoint × ℤ) :=
    if p.near ≠ "" ∧ p.radiusKm > 0 then
      (parseNear p.near).map fun c => (c, int_trunc (p.radiusKm * 1000))
    else none
  let category_single := pyStrip p.category
  let categories_raw := pyStrip p.categories
  let cat_ids : List String :=
    (if category_single ≠ "" then [category_single] else []) ++
    (if categories_raw ≠ "" then
      (pySplit ',' categories_raw).filter (fun c => pyStrip c ≠ "") else [])
  let cat_mode := pyLower (if p.catMode = "" then "any" else p.catMode)
  let andCat := catAndClauses p.luxuryMinPrice cat_ids cat_mode
  let booked_ids :=
    get_booked_property_ids bookingsCol v.start_dt v.end_dt
      [some "confirmed", some "paid", none]
  let idNin : Option (List ℕ) := if booked_ids ≠ [] then some booked_ids else none
  let sort_spec : List (String × ℤ) :=
    if p.sort = "price_asc" then [("price", 1), ("_id", -1)]
    else if p.sort = "price_desc" then [("price", -1), ("_id", -1)]
    else [("_id", -1)]
  let geoFinal : Option GeoClause × Bool :=
    match geoInfo with
    | some (c, m) =>
      if p.sort = "price_asc" ∨ p.sort = "price_desc" then
        (some (.withinSphere c ((m : ℚ) / EARTH_RADIUS_M)), false)
      else (some (.near c m), true)
    | none => (none, false)
  let query : MQuery :=
    { orClause := orClause
      andClauses := andRegion ++ andAmen ++ andCat
      maxGuestsGte := v.g
      priceGte := v.minP
      priceLte := v.maxP
      geo := geoFinal.1
      idNin := idNin }
  { query := query
    query_for_count := swap_near_for_count query
    use_near := geoFinal.2
    sort_spec := sort_spec
    limit := limit
    offset := offset }

/-- `list_properties` (main.py:181-408) as a pure compiler: validate, then
build the plan. -/
def list_properties (bookingsCol : List Booking) (p : ListParams) :
    Except ApiError ListPlan :=
  match validateParams p with
  | .error e => .error e
  | .ok v => .ok (buildPlan bookingsCol p v)

/-- The sort actually applied to the item fetch (main.py:402-404):
none while `$near` ordering is in effect. -/
def itemSort (plan : ListPlan) : Option (List (String × ℤ)) :=
  if plan.use_near = false ∧ plan.sort_spec ≠ [] then some plan.sort_spec else none

/-- Whether the compiled filter's `_id $nin` clause excludes a property id. -/
def excludedByAvailability (q : MQuery) (pid : ℕ) : Bool :=
  match q.idNin with
  | some l => decide (pid ∈ l)
  | none => false

/-- The angular radius carried by a bounded geo clause, if any. -/
def geoAngular : Option GeoClause → Option ℚ
  | some (.withinSphere _ a) => some a
  | _ => none

/-! ## Detail lookup (`_to_object_id` main.py:64-67, `get_property`
main.py:430-444) -/

/-- `bson.ObjectId.is_valid` on a string: exactly 24 hexadecimal digits. -/
def objectIdIsValid (s : String) : Bool :=
  strLen s = 24 && strAll (fun c =>
    isDigitChar c || ('a' ≤ c && c ≤ 'f') || ('A' ≤ c && c ≤ 'F')) s

/-- `_to_object_id` (main.py:64-67): a malformed id aborts with HTTP 400
`"Invalid property id"`. -/
def _to_object_id (id_str : String) : Except ApiError String :=
  if objectIdIsValid id_str then .ok id_str
  else .error ⟨400, "Invalid property id"⟩

/-- A stored property document for the detail route; only the identity
matters to the claims about lookup failure, the localized payload is carried
opaquely. -/
structure DetailDoc where
  id : String
  body : List (String × LocValue) := []
deriving DecidableEq, Repr

/-- `get_property` (main.py:430-444): convert the path id (400 on malformed),
`find_one` by `_id` (404 `"Property not found"` when absent), and return the
document.  The `localize_detail_doc` projection applied to a found document
is orthogonal to the failure modes and is not modeled. -/
def get_property (catalog : List DetailDoc) (prop_id : String) :
    Except ApiError DetailDoc :=
  match _to_object_id prop_id with
  | .error e => .error e
  | .ok oid =>
    match catalog.find? (fun d => d.id = oid) with
    | some doc => .ok doc
    | none => .error ⟨404, "Property not found"⟩

/-! ## Places autocomplete and its 24-hour cache
(`places_autocomplete`, main.py:467-586)

The GeoNames provider is an external collaborator, modeled as a function
from the request parameters to `none` (any transport/parse failure) or the
parsed `geonames` hit list.  The cache collection and the clock are explicit
arguments; the outcome records the response, whether the provider was
called, the parameters sent to it, and the cache contents afterwards. -/

/-- The normalized cache key (main.py:494-500). -/
structure CacheKey where
  q : String
  limit : ℤ
  lang : String
  country : String
  near : String
deriving DecidableEq, Repr

/-- One suggestion in the response payload (main.py:568-577). -/
structure Suggestion where
  lat : ℚ
  lon : ℚ
  name : String
  admin1 : String
  country : String
  countryCode : Option String
  geonameId : Option ℕ
  display : String
deriving DecidableEq, Repr

/-- One raw GeoNames record; `lat`/`lng` are `none` when `float()` on the
provider's value would raise (that hit is skipped). -/
structure GeoHit where
  lat : Option ℚ := none
  lng : Option ℚ := none
  name : Option String := none
  adminName1 : Option String := none
  countryName : Option String := none
  countryCode : Option String := none
  geonameId : Option ℕ := none
deriving DecidableEq, Repr

/-- A cached entry: key fields plus `ts` and `data` (main.py:580-584). -/
structure CacheEntry where
  key : CacheKey
  ts : ℤ
  data : List Suggestion
deriving DecidableEq, Repr

/-- The query-string parameters sent to GeoNames (main.py:517-536).
`orderby` is `none` when a malformed `near` skipped both orderings. -/
structure UpstreamParams where
  name_startsWith : String
  maxRows : ℤ
  featureClass : String
  country : String
  lang : String
  username : String
  latlng : Option (ℚ × ℚ) := none
  orderby : Option String := none
deriving DecidableEq, Repr

/-- Parameter normalization (main.py:481-500): trimmed query, limit clamped
to `[1,15]`, lang defaulted/lowercased into `{en, he}`, country defaulted to
`IL` and uppercased, `near` trimmed. -/
def normPlacesKey (qRaw : String) (limitRaw : ℤ)
    (langRaw countryRaw nearRaw : String) : CacheKey :=
  let l0 := pyLower (if langRaw = "" then "en" else langRaw)
  { q := pyStrip qRaw
    limit := max 1 (min limitRaw 15)
    lang := if l0 = "en" ∨ l0 = "he" then l0 else "en"
    country := pyUpper (if countryRaw = "" then "IL" else countryRaw)
    near := pyStrip nearRaw }

/-- `lat_str, lon_str = near.split(","); lat, lon = float(...), float(...)`
(main.py:527-529), in (lat, lon) order; `none` models the swallowed
exception. -/
def parseLatLon (s : String) : Option (ℚ × ℚ) :=
  match pySplit ',' s with
  | [a, b] =>
    match pyFloat a, pyFloat b with
    | some lat, some lon => some (lat, lon)
    | _, _ => none
  | _ => none

/-- The GeoNames request parameters (main.py:517-536).  The source's lang
expression is `"en" if lang == "he" else "en"` verbatim. -/
def placesParams (key : CacheKey) (username : String) : UpstreamParams :=
  let base : UpstreamParams :=
    { name_startsWith := key.q
      maxRows := key.limit
      featureClass := "P"
      country := key.country
      lang := if key.lang = "he" then "en" else "en"
      username := username }
  if key.near ≠ "" then
    match parseLatLon key.near with
    | some ll => { base with latlng := some ll, orderby := some "distance" }
    | none => base
  else { base with orderby := some "population" }

/-- `", ".join([x for x in parts if x])`. -/
def joinNonEmpty (parts : List String) : String :=
  ⟨joinChars ", ".data ((parts.filter (· ≠ "")).map String.data)⟩

/-- Transform provider hits into suggestions (main.py:550-577): skip hits
whose coordinates fail to parse; display is name+admin1 for Hebrew,
name+admin1+country otherwise, empty components dropped. -/
def transformHits (lang : String) (hits : List GeoHit) : List Suggestion :=
  hits.filterMap fun h =>
    match h.lat, h.lng with
    | some lat, some lon =>
      let name := h.name.getD ""
      let admin1 := h.adminName1.getD ""
      let country_name := h.countryName.getD ""
      let display :=
        if lang = "he" then joinNonEmpty [name, admin1]
        else joinNonEmpty [name, admin1, country_name]
      some { lat := lat, lon := lon, name := name, admin1 := admin1,
             country := country_name, countryCode := h.countryCode,
             geonameId := h.geonameId, display := display }
    | _, _ => none

/-- `db.places_cache.find_one(cache_key)`. -/
def cacheFind (cache : List CacheEntry) (k : CacheKey) : Option CacheEntry :=
  cache.find? (fun e => e.key = k)

/-- `db.places_cache.update_one(cache_key, {"$set": ...}, upsert=True)`:
overwrite the first matching entry in place, or append a new one. -/
def cacheUpsert (cache : List CacheEntry) (k : CacheKey) (ts : ℤ)
    (data : List Suggestion) : List CacheEntry :=
  match cache with
  | [] => [⟨k, ts, data⟩]
  | e :: rest =>
    if e.key = k then { e with ts := ts, data := data } :: rest
    else e :: cacheUpsert rest k ts data

instance {ε α : Type} [DecidableEq ε] [DecidableEq α] : DecidableEq (Except ε α) :=
  fun a b =>
    match a, b with
    | .error e1, .error e2 =>
      if h : e1 = e2 then .isTrue (by rw [h]) else .isFalse (by simp [h])
    | .ok v1, .ok v2 =>
      if h : v1 = v2 then .isTrue (by rw [h]) else .isFalse (by simp [h])
    | .error _, .ok _ => .isFalse (by simp)
    | .ok _, .error _ => .isFalse (by simp)

/-- The observable outcome of one `places_autocomplete` request. -/
structure PlacesOutcome where
  response : Except ApiError (List Suggestion)
  upstreamCalled : Bool
  upstreamParams : Option UpstreamParams
  cache : List CacheEntry
deriving DecidableEq, Repr

/-- The cache-miss tail of `places_autocomplete` (main.py:507-586): check
`GEONAMES_USER` (500 when unset), call the provider, degrade to an empty
list on failure without touching the cache, otherwise transform the hits
and upsert the entry with the fresh timestamp and payload. -/
def places_fetch_and_store (fetch : UpstreamParams → Option (List GeoHit))
    (username : Option String) (now : ℤ) (cache : List CacheEntry)
    (key : CacheKey) : PlacesOutcome :=
  match username with
  | none => ⟨.error ⟨500, "GEONAMES_USER env var is not set"⟩, false, none, cache⟩
  | some user =>
    let params := placesParams key user
    match fetch params with
    | none => ⟨.ok [], true, some params, cache⟩
    | some hits =>
      let out := transformHits key.lang hits
      ⟨.ok out, true, some params, cacheUpsert cache key now out⟩

/-- `places_autocomplete` (main.py:467-586): empty query short-circuits to an
empty list; a cache hit younger than 86400 seconds returns the cached
payload without an upstream call; otherwise the miss path runs.  `now` and
entry timestamps are in seconds (`datetime.utcnow()`). -/
def places_autocomplete (fetch : UpstreamParams → Option (List GeoHit))
    (username : Option String) (now : ℤ) (cache : List CacheEntry)
    (qRaw : String) (limitRaw : ℤ) (langRaw countryRaw nearRaw : String) :
    PlacesOutcome :=
  if pyStrip qRaw = "" then ⟨.ok [], false, none, cache⟩
  else
    let key := normPlacesKey qRaw limitRaw langRaw countryRaw nearRaw
    match cacheFind cache key with
    | some entry =>
      if now - entry.ts < 86400 then ⟨.ok entry.data, false, none, cache⟩
      else places_fetch_and_store fetch username now cache key
    | none => places_fetch_and_store fetch username now cache key

/-! ## Helper lemmas -/

lemma firstTruthy_eq_find (m : List (String × Payload)) :
    firstTruthy m = ((m.map Prod.snd).find? truthy).getD .null := by
  induction m with
  | nil => rfl
  | cons kv rest ih =>
    obtain ⟨k, v⟩ := kv
    by_cases hv : truthy v
    · simp [firstTruthy, List.find?_cons_of_pos, hv]
    · simp only [Bool.not_eq_true] at hv
      simp [firstTruthy, List.find?_cons_of_neg, hv, ih]

lemma parse_date_safe_empty : parse_date_safe "" = none := rfl

lemma list_properties_ok (bookingsCol : List Booking) (p : ListParams)
    (plan : ListPlan) (h : list_properties bookingsCol p = .ok plan) :
    ∃ v, validateParams p = .ok v ∧ plan = buildPlan bookingsCol p v := by
  unfold list_properties at h
  cases hv : validateParams p with
  | error e => rw [hv] at h; exact absurd h (by simp)
  | ok v =>
    rw [hv] at h
    simp only [Except.ok.injEq] at h
    exact ⟨v, rfl, h.symm⟩

lemma validateParams_ok_dates (p : ListParams) (v : VParams)
    (h : validateParams p = .ok v) :
    v.start_dt = reqStartDt p ∧ v.end_dt = reqEndDt p := by
  simp only [validateParams] at h
  repeat' split at h
  all_goals first
    | (simp only [Except.ok.injEq] at h; rw [← h]; exact ⟨rfl, rfl⟩)
    | exact absurd h (by simp)

/-! ## Claim theorems -/

/-- C1: for every localized value and requested language, `pick_lang_value`
returns, when the value is a per-language mapping, the requested language's
entry if present and non-empty, otherwise the default language's (`en`)
entry if present and non-empty, otherwise the first non-empty entry in
iteration order, otherwise null; and when the value is not a mapping, the
value itself unchanged.  (The embedding is a pure function, so the input is
never mutated.) -/
theorem pick_lang_value_fallback_contract (v : LocValue) (lang : String) :
    pick_lang_value v lang =
      match v with
      | .scalar p => p
      | .mapping m =>
        ((((assocLookup lang m).bind fun p => if truthy p then some p else none).orElse
            fun _ =>
              (assocLookup DEFAULT_LANG m).bind fun p =>
                if truthy p then some p else none).orElse
            fun _ => (m.map Prod.snd).find? truthy).getD .null := by
  cases v with
  | scalar p => rfl
  | mapping m =>
    simp only [pick_lang_value]
    cases h1 : assocLookup lang m with
    | none =>
      cases h2 : assocLookup DEFAULT_LANG m with
      | none => simp [Option.orElse, firstTruthy_eq_find]
      | some w =>
        by_cases hw : truthy w <;>
          simp [Option.orElse, hw, firstTruthy_eq_find]
    | some v' =>
      by_cases hv : truthy v'
      · simp [Option.orElse, hv]
      · simp only [Bool.not_eq_true] at hv
        cases h2 : assocLookup DEFAULT_LANG m with
        | none => simp [Option.orElse, hv, firstTruthy_eq_find]
        | some w =>
          by_cases hw : truthy w <;>
            simp [Option.orElse, hv, hw, firstTruthy_eq_find]

lemma buildPlan_idNin (bookingsCol : List Booking) (p : ListParams) (v : VParams) :
    (buildPlan bookingsCol p v).query.idNin =
      if get_booked_property_ids bookingsCol v.start_dt v.end_dt
          [some "confirmed", some "paid", none] ≠ [] then
        some (get_booked_property_ids bookingsCol v.start_dt v.end_dt
          [some "confirmed", some "paid", none])
      else none := rfl

lemma mem_get_booked (bookingsCol : List Booking) (s e : ℤ) (pid : ℕ) :
    pid ∈ get_booked_property_ids bookingsCol (some s) (some e)
        [some "confirmed", some "paid", none] ↔
      ∃ b ∈ bookingsCol, b.property_id = pid ∧ b.start ≤ e ∧ s ≤ b.endDate ∧
        (b.status = some "confirmed" ∨ b.status = some "paid" ∨ b.status = none) := by
  simp only [get_booked_property_ids, List.mem_dedup, List.mem_map, List.mem_filter,
    Bool.and_eq_true, decide_eq_true_eq]
  constructor
  · rintro ⟨b, ⟨hmem, ⟨h1, h2⟩, h3⟩, rfl⟩
    refine ⟨b, hmem, rfl, h1, h2, ?_⟩
    simpa using h3
  · rintro ⟨b, hmem, rfl, h1, h2, h3⟩
    exact ⟨b, ⟨hmem, ⟨h1, h2⟩, by simpa using h3⟩, rfl⟩

/-- C2: with both query bounds present, a property id is excluded by the
availability filter of the compiled listing query if and only if some
booking for it satisfies `start ≤ queryEnd`, `end ≥ queryStart` and has
status in the active set `{confirmed, paid, absent/null}` — a booking with
an absent (or null) status blocks. -/
theorem availability_excludes_iff_overlapping_active_booking
    (bookingsCol : List Booking) (p : ListParams) (plan : ListPlan)
    (s e : ℤ) (pid : ℕ)
    (hok : list_properties bookingsCol p = .ok plan)
    (hs : reqStartDt p = some s) (he : reqEndDt p = some e) :
    excludedByAvailability plan.query pid = true ↔
      ∃ b ∈ bookingsCol, b.property_id = pid ∧ b.start ≤ e ∧ s ≤ b.endDate ∧
        (b.status = some "confirmed" ∨ b.status = some "paid" ∨ b.status = none) := by
  obtain ⟨v, hv, rfl⟩ := list_properties_ok bookingsCol p plan hok
  obtain ⟨hsd, hed⟩ := validateParams_ok_dates p v hv
  rw [hs] at hsd
  rw [he] at hed
  have key : excludedByAvailability (buildPlan bookingsCol p v).query pid = true ↔
      pid ∈ get_booked_property_ids bookingsCol (some s) (some e)
        [some "confirmed", some "paid", none] := by
    simp only [excludedByAvailability, buildPlan_idNin, hsd, hed]
    by_cases hb : get_booked_property_ids bookingsCol (some s) (some e)
        [some "confirmed", some "paid", none] = []
    · simp [hb]
    · simp [hb]
  exact key.trans (mem_get_booked bookingsCol s e pid)

def c2Bookings : List Booking := [⟨5, 20240101, 20240103, some "paid"⟩]

def c2Params : ListParams := { start := "2024-01-02", endDate := "2024-01-04" }

def c2Plan : ListPlan := ((list_properties c2Bookings c2Params).toOption).getD default

theorem availability_excludes_witness :
    excludedByAvailability c2Plan.query 5 = true ↔
      ∃ b ∈ c2Bookings, b.property_id = 5 ∧ b.start ≤ 20240104 ∧
        20240102 ≤ b.endDate ∧
        (b.status = some "confirmed" ∨ b.status = some "paid" ∨ b.status = none) :=
  availability_excludes_iff_overlapping_active_booking c2Bookings c2Params c2Plan
    20240102 20240104 5 (by rfl) (by rfl) (by rfl)

lemma reqStartDt_eq_none (p : ListParams)
    (h : parse_date_safe (pyStrip p.start) = none) : reqStartDt p = none := by
  unfold reqStartDt
  by_cases hs0 : pyStrip p.start = "" <;> simp [hs0, h]

lemma reqEndDt_eq_none (p : ListParams)
    (h : parse_date_safe (pyStrip p.endDate) = none) : reqEndDt p = none := by
  unfold reqEndDt
  by_cases hs0 : pyStrip p.endDate = "" <;> simp [hs0, h]

lemma get_booked_none_left (bookingsCol : List Booking) (ed : Option ℤ)
    (allowed : List (Option String)) :
    get_booked_property_ids bookingsCol none ed allowed = [] := rfl

lemma get_booked_none_right (bookingsCol : List Booking) (sd : Option ℤ)
    (allowed : List (Option String)) :
    get_booked_property_ids bookingsCol sd none allowed = [] := by
  cases sd <;> rfl

/-- C6: a listing request whose start and end parameters parse to dates with
the end strictly before the start is rejected with the 400
`end date must be >= start date` validation error, whatever other filters
the request carries — no plan is compiled. -/
theorem end_before_start_rejected
    (bookingsCol : List Booking) (p : ListParams) (s e : ℤ)
    (hs : reqStartDt p = some s) (he : reqEndDt p = some e) (hlt : e < s) :
    list_properties bookingsCol p =
      .error ⟨400, "end date must be >= start date"⟩ := by
  unfold list_properties validateParams
  rw [hs, he]
  simp [hlt]

def c6Params : ListParams :=
  { q := "villa", start := "2024-05-10", endDate := "2024-05-01",
    guests := "2", category := "family", sort := "price_asc" }

theorem end_before_start_rejected_witness :
    list_properties [] c6Params = .error ⟨400, "end date must be >= start date"⟩ :=
  end_before_start_rejected [] c6Params 20240510 20240501
    (by decide) (by decide) (by decide)

/-- C10: a non-empty but unparseable start or end date string is silently
treated as absent: the request compiles exactly as if that date parameter
had been omitted, it is never rejected with the end-before-start validation
error (even when the other bound is an earlier date), and the compiled
filter carries no availability exclusion clause. -/
theorem malformed_date_treated_as_absent
    (bookingsCol : List Booking) (p : ListParams) :
    (parse_date_safe (pyStrip p.start) = none →
      list_properties bookingsCol p =
        list_properties bookingsCol { p with start := "" }) ∧
    (parse_date_safe (pyStrip p.endDate) = none →
      list_properties bookingsCol p =
        list_properties bookingsCol { p with endDate := "" }) ∧
    ((parse_date_safe (pyStrip p.start) = none ∨
      parse_date_safe (pyStrip p.endDate) = none) →
      list_properties bookingsCol p ≠
        .error ⟨400, "end date must be >= start date"⟩) ∧
    ((parse_date_safe (pyStrip p.start) = none ∨
      parse_date_safe (pyStrip p.endDate) = none) →
      ∀ plan, list_properties bookingsCol p = .ok plan →
        plan.query.idNin = none) := by
  refine ⟨?_, ?_, ?_, ?_⟩
  · intro h
    have h2 : reqStartDt p = reqStartDt { p with start := "" } := by
      rw [reqStartDt_eq_none p h]; rfl
    unfold list_properties validateParams
    rw [h2]
    rfl
  · intro h
    have h2 : reqEndDt p = reqEndDt { p with endDate := "" } := by
      rw [reqEndDt_eq_none p h]; rfl
    unfold list_properties validateParams
    rw [h2]
    rfl
  · intro hor
    unfold list_properties validateParams
    have hfalse :
        (match reqStartDt p, reqEndDt p with
          | some s, some e => decide (e < s)
          | _, _ => false) = false := by
      rcases hor with h | h
      · rw [reqStartDt_eq_none p h]
      · rw [reqEndDt_eq_none p h]
        cases reqStartDt p <;> rfl
    rw [hfalse]
    simp only [Bool.false_eq_true, if_false]
    split
    · rename_i e heq
      repeat' split at heq
      all_goals try exact Except.noConfusion heq
      all_goals (injection heq; rename_i h3; subst h3; simp)
    · simp
  · intro hor plan hok
    obtain ⟨v, hv, rfl⟩ := list_properties_ok bookingsCol p plan hok
    obtain ⟨hsd, hed⟩ := validateParams_ok_dates p v hv
    rw [buildPlan_idNin, hsd, hed]
    rcases hor with h | h
    · rw [reqStartDt_eq_none p h, get_booked_none_left]
      simp
    · rw [reqEndDt_eq_none p h, get_booked_none_right]
      simp

def c10Params : ListParams := { start := "2024-02-31x", endDate := "2020-01-01" }

theorem malformed_date_witness :
    list_properties [] c10Params =
      list_properties [] { c10Params with start := "" } ∧
    list_properties [] c10Params ≠
      .error ⟨400, "end date must be >= start date"⟩ :=
  ⟨(malformed_date_treated_as_absent [] c10Params).1 (by decide),
   (malformed_date_treated_as_absent [] c10Params).2.2.1 (Or.inl (by decide))⟩

/-- C4: when a request carries a usable geo constraint (parsable `near`,
positive `radiusKm`), an explicit price sort (`price_asc`/`price_desc`)
forces the bounded `$geoWithin` lowering and the explicit price sort is
applied to the item fetch; any other sort value keeps the ordered `$near`
lowering, and then no explicit sort at all is applied to the item fetch. -/
theorem geo_lowering_respects_sort
    (bookingsCol : List Booking) (p : ListParams) (plan : ListPlan) (c : GeoPoint)
    (hok : list_properties bookingsCol p = .ok plan)
    (hnear : p.near ≠ "") (hrad : p.radiusKm > 0)
    (hparse : parseNear p.near = some c) :
    ((p.sort = "price_asc" ∨ p.sort = "price_desc") →
      plan.query.geo =
        some (.withinSphere c ((int_trunc (p.radiusKm * 1000) : ℚ) / EARTH_RADIUS_M)) ∧
      plan.use_near = false ∧
      itemSort plan = some plan.sort_spec ∧
      plan.sort_spec = (if p.sort = "price_asc" then [("price", 1), ("_id", -1)]
                        else [("price", -1), ("_id", -1)])) ∧
    (¬(p.sort = "price_asc" ∨ p.sort = "price_desc") →
      plan.query.geo = some (.near c (int_trunc (p.radiusKm * 1000))) ∧
      plan.use_near = true ∧
      itemSort plan = none) := by
  obtain ⟨v, hv, rfl⟩ := list_properties_ok bookingsCol p plan hok
  constructor
  · intro hsort
    rcases hsort with hs1 | hs1 <;>
      refine ⟨?_, ?_, ?_, ?_⟩ <;>
        simp [buildPlan, itemSort, hnear, hrad, hparse, hs1]
  · intro hnsort
    refine ⟨?_, ?_, ?_⟩ <;>
      simp [buildPlan, itemSort, hnear, hrad, hparse, hnsort]

def c4Params : ListParams := { near := "32.08,34.78", radiusKm := 10, sort := "price_asc" }

def c4Plan : ListPlan := ((list_properties [] c4Params).toOption).getD default

theorem geo_lowering_respects_sort_witness :
    c4Plan.query.geo =
      some (.withinSphere ((3478 : ℚ)/100, (3208 : ℚ)/100) ((10000 : ℚ) / EARTH_RADIUS_M)) ∧
    c4Plan.use_near = false ∧
    itemSort c4Plan = some c4Plan.sort_spec ∧
    c4Plan.sort_spec = [("price", 1), ("_id", -1)] := by
  have h := (geo_lowering_respects_sort [] c4Params c4Plan ((3478 : ℚ)/100, (3208 : ℚ)/100)
      (by with_unfolding_all rfl) (by decide) (by with_unfolding_all decide)
      (by with_unfolding_all decide)).1 (Or.inl rfl)
  with_unfolding_all exact h

lemma int_trunc_intCast (n : ℤ) : int_trunc (n : ℚ) = n := by
  simp [int_trunc, Int.tdiv_one]

/-- C3 counterexample: for `radiusKm = 1/1024` (an exactly representable
float, 2^-10), the bounded lowering built for a price-sorted geo request
carries angular radius `0`, because the linear radius is truncated to whole
meters (`int(radius_km * 1000)`) before the division — while the claimed
value `(R*1000)/6378137.0` is non-zero. -/
def c3Params : ListParams := { near := "32.08,34.78", radiusKm := 1/1024, sort := "price_asc" }

def c3Plan : ListPlan := ((list_properties [] c3Params).toOption).getD default

theorem bounded_angular_radius_counterexample :
    geoAngular c3Plan.query.geo = some 0 ∧
    c3Params.radiusKm * 1000 / 6378137 ≠ (0 : ℚ) := by
  constructor
  · with_unfolding_all rfl
  · with_unfolding_all decide

/-- C3 amended: the bounded lowering's angular radius equals
`int(R × 1000) / 6378137.0` — the linear radius in meters is truncated to an
integer first; whenever `R × 1000` is itself an integer this coincides with
the claimed `(R × 1000) / 6378137.0` exactly.  Both bounded-lowering sites
(the item query under a price sort, and the count query otherwise) carry
this angular radius. -/
theorem bounded_angular_radius_amended
    (bookingsCol : List Booking) (p : ListParams) (plan : ListPlan) (c : GeoPoint)
    (hok : list_properties bookingsCol p = .ok plan)
    (hnear : p.near ≠ "") (hrad : p.radiusKm > 0)
    (hparse : parseNear p.near = some c) :
    ((p.sort = "price_asc" ∨ p.sort = "price_desc") →
      plan.query.geo = some (.withinSphere c
        ((int_trunc (p.radiusKm * 1000) : ℚ) / EARTH_RADIUS_M))) ∧
    (¬(p.sort = "price_asc" ∨ p.sort = "price_desc") →
      plan.query_for_count.geo = some (.withinSphere c
        ((int_trunc (p.radiusKm * 1000) : ℚ) / EARTH_RADIUS_M))) ∧
    (∀ n : ℤ, p.radiusKm * 1000 = (n : ℚ) →
      (int_trunc (p.radiusKm * 1000) : ℚ) / EARTH_RADIUS_M =
        p.radiusKm * 1000 / EARTH_RADIUS_M) := by
  obtain ⟨v, hv, rfl⟩ := list_properties_ok bookingsCol p plan hok
  refine ⟨?_, ?_, ?_⟩
  · intro hsort
    rcases hsort with hs1 | hs1 <;>
      simp [buildPlan, hnear, hrad, hparse, hs1]
  · intro hnsort
    simp [buildPlan, swap_near_for_count, hnear, hrad, hparse, hnsort]
  · intro n hn
    rw [hn, int_trunc_intCast]

def c3wParams : ListParams := { near := "32.08,34.78", radiusKm := 2, sort := "new" }

def c3wPlan : ListPlan := ((list_properties [] c3wParams).toOption).getD default

theorem bounded_angular_radius_amended_witness :
    c3wPlan.query_for_count.geo =
      some (.withinSphere ((3478 : ℚ)/100, (3208 : ℚ)/100) ((2000 : ℚ) / EARTH_RADIUS_M)) ∧
    (int_trunc ((2 : ℚ) * 1000) : ℚ) / EARTH_RADIUS_M = (2 : ℚ) * 1000 / EARTH_RADIUS_M := by
  have h := bounded_angular_radius_amended [] c3wParams c3wPlan ((3478 : ℚ)/100, (3208 : ℚ)/100)
      (by with_unfolding_all rfl) (by decide) (by with_unfolding_all decide)
      (by with_unfolding_all decide)
  have h1 := h.2.1 (by decide)
  have h2 := h.2.2 2000 (by with_unfolding_all decide)
  with_unfolding_all exact ⟨h1, h2⟩

lemma evalGeo_swap (dist : GeoPoint → GeoPoint → ℚ) (dgeo : Option GeoPoint)
    (c : GeoPoint) (m : ℤ) :
    evalGeo dist dgeo (.withinSphere c ((m : ℚ) / EARTH_RADIUS_M)) =
      evalGeo dist dgeo (.near c m) := by
  cases dgeo with
  | none => rfl
  | some pt =>
    simp only [evalGeo]
    rw [decide_eq_decide]
    have hR : (0 : ℚ) < EARTH_RADIUS_M := by norm_num [EARTH_RADIUS_M]
    exact div_le_div_iff_of_pos_right hR

lemma evalQuery_swap (dist : GeoPoint → GeoPoint → ℚ)
    (rx : RegexPat → String → Bool) (q : MQuery) (d : PropDoc) :
    evalQuery dist rx (swap_near_for_count q) d = evalQuery dist rx q d := by
  cases hg : q.geo with
  | none => simp [swap_near_for_count, hg]
  | some gc =>
    cases gc with
    | near c m =>
      simp only [swap_near_for_count, hg, evalQuery, evalGeo_swap]
    | withinSphere c a => simp [swap_near_for_count, hg]

/-- C5: the count query compiled for a listing request is the item query
with a `$near` geo lowering replaced by the bounded `$geoWithin` lowering at
the same center and the equivalent angular radius; consequently, over any
point-in-time catalog, the returned total equals the number of documents
matching the item query itself — whichever lowering produced the item
page. -/
theorem count_query_matches_item_query
    (bookingsCol : List Booking) (p : ListParams) (plan : ListPlan)
    (dist : GeoPoint → GeoPoint → ℚ) (rx : RegexPat → String → Bool)
    (catalog : List PropDoc)
    (hok : list_properties bookingsCol p = .ok plan) :
    plan.query_for_count = swap_near_for_count plan.query ∧
    count_documents dist rx plan.query_for_count catalog =
      (catalog.filter (evalQuery dist rx plan.query)).length := by
  obtain ⟨v, hv, rfl⟩ := list_properties_ok bookingsCol p plan hok
  refine ⟨rfl, ?_⟩
  unfold count_documents
  congr 1
  apply List.filter_congr
  intro d _
  exact evalQuery_swap dist rx _ d

def c5Doc1 : PropDoc :=
  { id := 1, numFields := [("price", 300)], geo := some (34, 32) }

def c5Doc2 : PropDoc :=
  { id := 2, numFields := [("price", 500)], geo := some (35, 33) }

/-- A concrete planar distance stand-in for the witness (any function
works: the equivalence is independent of the metric). -/
def c5Dist (a b : GeoPoint) : ℚ :=
  (a.1 - b.1) * (a.1 - b.1) + (a.2 - b.2) * (a.2 - b.2)

def c5Rx (pat : RegexPat) (s : String) : Bool :=
  match pat with
  | .escaped l => l = s
  | .raw _ => false

theorem count_query_matches_item_query_witness :
    c3wPlan.query_for_count = swap_near_for_count c3wPlan.query ∧
    count_documents c5Dist c5Rx c3wPlan.query_for_count [c5Doc1, c5Doc2] =
      ([c5Doc1, c5Doc2].filter (evalQuery c5Dist c5Rx c3wPlan.query)).length :=
  count_query_matches_item_query [] c3wParams c3wPlan c5Dist c5Rx [c5Doc1, c5Doc2]
    (by with_unfolding_all rfl)

/-- C7 counterexample: a malformed identifier on the detail lookup fails
with HTTP 400 `Invalid property id` (from `_to_object_id`), not with the
NotFound (404) response the claim asserts. -/
theorem malformed_id_counterexample :
    get_property [] "bad-id" = .error ⟨400, "Invalid property id"⟩ ∧
    (400 : ℕ) ≠ 404 :=
  ⟨rfl, by decide⟩

/-- C7 amended: a detail lookup fails with the 400 `Invalid property id`
validation error when the identifier is not a well-formed object id, and
with NotFound (404, `Property not found`) when it is well-formed but absent
from the catalog. -/
theorem detail_lookup_failure_modes (catalog : List DetailDoc) (s : String) :
    (objectIdIsValid s = false →
      get_property catalog s = .error ⟨400, "Invalid property id"⟩) ∧
    (objectIdIsValid s = true →
      catalog.find? (fun d => d.id = s) = none →
      get_property catalog s = .error ⟨404, "Property not found"⟩) := by
  constructor
  · intro h
    simp [get_property, _to_object_id, h]
  · intro h hf
    simp [get_property, _to_object_id, h, hf]

theorem detail_lookup_failure_modes_witness :
    get_property [] "zzz" = .error ⟨400, "Invalid property id"⟩ ∧
    get_property [] "aaaaaaaaaaaaaaaaaaaaaaaa" = .error ⟨404, "Property not found"⟩ :=
  ⟨(detail_lookup_failure_modes [] "zzz").1 (by decide),
   (detail_lookup_failure_modes [] "aaaaaaaaaaaaaaaaaaaaaaaa").2 (by decide) rfl⟩

lemma evalFilter_orF (rx : RegexPat → String → Bool) (d : PropDoc)
    (fs : List MFilter) :
    evalFilter rx d (.orF fs) = fs.any (evalFilter rx d) := by
  rw [Bool.eq_iff_iff]
  simp only [evalFilter, List.any_eq_true]
  exact ⟨fun ⟨x, _, h⟩ => ⟨x.1, x.2, h⟩,
         fun ⟨a, ha, h⟩ => ⟨⟨a, ha⟩, List.mem_attach _ _, h⟩⟩

/-- C8: predicates from unrecognized category identifiers are dropped before
combination (appending an unrecognized id leaves the category clause
unchanged); with `catMode = "all"` the combined clause holds of a document
iff every recognized category predicate evaluates true, and with any other
mode value (the default `any` behaviour) iff at least one recognized
predicate evaluates true, whenever at least one identifier was recognized —
no recognized identifier imposes no constraint.  Quantified over the
external regex oracle and the document. -/
theorem category_mode_combination
    (rx : RegexPat → String → Bool) (lux : ℚ) (d : PropDoc)
    (cat_ids : List String) (mode : String) :
    (∀ c, _cat_filter lux c = none →
      catAndClauses lux (cat_ids ++ [c]) mode = catAndClauses lux cat_ids mode) ∧
    ((catAndClauses lux cat_ids mode).all (evalFilter rx d) = true ↔
      (if mode = "all" then
        ∀ f ∈ cat_ids.filterMap (_cat_filter lux), evalFilter rx d f = true
      else
        (∃ f, f ∈ cat_ids.filterMap (_cat_filter lux)) →
          ∃ f ∈ cat_ids.filterMap (_cat_filter lux), evalFilter rx d f = true)) := by
  constructor
  · intro c hc
    have hdrop : List.filterMap (_cat_filter lux) (cat_ids ++ [c]) =
        List.filterMap (_cat_filter lux) cat_ids := by
      simp [List.filterMap_append, hc]
    unfold catAndClauses
    rw [hdrop]
  · simp only [catAndClauses]
    cases hfs : cat_ids.filterMap (_cat_filter lux) with
    | nil =>
      simp only [List.isEmpty_nil, if_true, List.all_nil]
      split <;> simp
    | cons f0 fs0 =>
      have hne : ((f0 :: fs0).isEmpty = true) = False := by simp
      simp only [hne, if_false]
      by_cases hm : mode = "all"
      · simp only [hm, if_true, List.all_eq_true]
      · simp only [hm, if_false, List.all_cons, List.all_nil, Bool.and_true,
          evalFilter_orF, List.any_eq_true]
        exact ⟨fun h _ => h, fun h => h ⟨f0, List.mem_cons_self f0 fs0⟩⟩

def c8Rx (pat : RegexPat) (s : String) : Bool :=
  match pat with
  | .escaped l => l = s
  | .raw _ => true

def c8Doc : PropDoc := { id := 1, numFields := [("maxGuests", 5)] }

theorem category_mode_combination_witness :
    catAndClauses 700 ["family", "unknowncat"] "any" =
      catAndClauses 700 ["family"] "any" ∧
    ((catAndClauses 700 ["family", "unknowncat"] "any").all
        (evalFilter c8Rx c8Doc) = true ↔
      ((∃ f, f ∈ (["family", "unknowncat"] : List String).filterMap (_cat_filter 700)) →
        ∃ f ∈ (["family", "unknowncat"] : List String).filterMap (_cat_filter 700),
          evalFilter c8Rx c8Doc f = true)) :=
  ⟨(category_mode_combination c8Rx 700 c8Doc ["family"] "any").1 "unknowncat" rfl,
   by
    have h := (category_mode_combination c8Rx 700 c8Doc ["family", "unknowncat"] "any").2
    simpa using h⟩

lemma cacheFind_upsert (cache : List CacheEntry) (k : CacheKey) (ts : ℤ)
    (data : List Suggestion) :
    cacheFind (cacheUpsert cache k ts data) k = some ⟨k, ts, data⟩ := by
  induction cache with
  | nil => simp [cacheUpsert, cacheFind, List.find?]
  | cons e rest ih =>
    by_cases he : e.key = k
    · simp only [cacheUpsert, if_pos he, cacheFind, List.find?]
      simp [he]
    · simp only [cacheUpsert, if_neg he, cacheFind, List.find?] at ih ⊢
      simp [he, ih]

lemma places_fresh_hit (fetch : UpstreamParams → Option (List GeoHit))
    (username : Option String) (now : ℤ) (cache : List CacheEntry)
    (qRaw : String) (limitRaw : ℤ) (langRaw countryRaw nearRaw : String)
    (entry : CacheEntry) (hq : pyStrip qRaw ≠ "")
    (hent : cacheFind cache (normPlacesKey qRaw limitRaw langRaw countryRaw nearRaw) =
      some entry)
    (hfresh : now - entry.ts < 86400) :
    places_autocomplete fetch username now cache qRaw limitRaw langRaw countryRaw nearRaw =
      ⟨.ok entry.data, false, none, cache⟩ := by
  simp only [places_autocomplete]
  rw [if_neg hq, hent]
  simp [hfresh]

lemma stale_of_missOrStale (cache : List CacheEntry) (key : CacheKey) (now : ℤ)
    (entry : CacheEntry) (hfind : cacheFind cache key = some entry)
    (hmiss : cacheFind cache key = none ∨
      ∃ e2, cacheFind cache key = some e2 ∧ ¬(now - e2.ts < 86400)) :
    ¬(now - entry.ts < 86400) := by
  rcases hmiss with h | ⟨e2, he2, hs⟩
  · rw [hfind] at h; cases h
  · rw [hfind] at he2
    injection he2 with h2
    rw [h2]
    exact hs

lemma places_miss_refresh (fetch : UpstreamParams → Option (List GeoHit))
    (now : ℤ) (cache : List CacheEntry)
    (qRaw : String) (limitRaw : ℤ) (langRaw countryRaw nearRaw : String)
    (user : String) (hits : List GeoHit) (hq : pyStrip qRaw ≠ "")
    (hmiss : cacheFind cache (normPlacesKey qRaw limitRaw langRaw countryRaw nearRaw) = none ∨
      ∃ entry, cacheFind cache (normPlacesKey qRaw limitRaw langRaw countryRaw nearRaw) =
        some entry ∧ ¬(now - entry.ts < 86400))
    (hf : fetch (placesParams (normPlacesKey qRaw limitRaw langRaw countryRaw nearRaw) user) =
      some hits) :
    places_autocomplete fetch (some user) now cache qRaw limitRaw langRaw countryRaw nearRaw =
      ⟨.ok (transformHits (normPlacesKey qRaw limitRaw langRaw countryRaw nearRaw).lang hits),
       true,
       some (placesParams (normPlacesKey qRaw limitRaw langRaw countryRaw nearRaw) user),
       cacheUpsert cache (normPlacesKey qRaw limitRaw langRaw countryRaw nearRaw) now
         (transformHits (normPlacesKey qRaw limitRaw langRaw countryRaw nearRaw).lang hits)⟩ := by
  simp only [places_autocomplete]
  rw [if_neg hq]
  cases hfind : cacheFind cache (normPlacesKey qRaw limitRaw langRaw countryRaw nearRaw) with
  | none => simp [places_fetch_and_store, hf]
  | some entry =>
    have hstale := stale_of_missOrStale _ _ _ _ hfind hmiss
    simp [hstale, places_fetch_and_store, hf]

lemma places_miss_fail (fetch : UpstreamParams → Option (List GeoHit))
    (now : ℤ) (cache : List CacheEntry)
    (qRaw : String) (limitRaw : ℤ) (langRaw countryRaw nearRaw : String)
    (user : String) (hq : pyStrip qRaw ≠ "")
    (hmiss : cacheFind cache (normPlacesKey qRaw limitRaw langRaw countryRaw nearRaw) = none ∨
      ∃ entry, cacheFind cache (normPlacesKey qRaw limitRaw langRaw countryRaw nearRaw) =
        some entry ∧ ¬(now - entry.ts < 86400))
    (hf : fetch (placesParams (normPlacesKey qRaw limitRaw langRaw countryRaw nearRaw) user) =
      none) :
    places_autocomplete fetch (some user) now cache qRaw limitRaw langRaw countryRaw nearRaw =
      ⟨.ok [], true,
       some (placesParams (normPlacesKey qRaw limitRaw langRaw countryRaw nearRaw) user),
       cache⟩ := by
  simp only [places_autocomplete]
  rw [if_neg hq]
  cases hfind : cacheFind cache (normPlacesKey qRaw limitRaw langRaw countryRaw nearRaw) with
  | none => simp [places_fetch_and_store, hf]
  | some entry =>
    have hstale := stale_of_missOrStale _ _ _ _ hfind hmiss
    simp [hstale, places_fetch_and_store, hf]

def c9Entry : CacheEntry := { key := ⟨"tel", 8, "en", "IL", ""⟩, ts := 0, data := [] }

def c9FailFetch : UpstreamParams → Option (List GeoHit) := fun _ => none

def c9Outcome : PlacesOutcome :=
  places_autocomplete c9FailFetch (some "u") 100000 [c9Entry] "tel" 8 "en" "IL" ""

/-- C9 counterexample: for a lookup whose cached entry is older than the
24-hour window (age 100000 s), the upstream call is indeed made — but when
that call fails, the cache entry is left exactly as it was: it is not
overwritten with the fresh timestamp and payload, contradicting the claim's
unconditional "overwrites the cache entry in place". -/
theorem places_cache_refresh_counterexample :
    c9Outcome.upstreamCalled = true ∧
    c9Outcome.cache = [c9Entry] ∧
    c9Entry.ts ≠ (100000 : ℤ) :=
  ⟨rfl, rfl, by decide⟩

/-- C9 amended: for a pair of lookups with the same normalized key
(trimmed query, clamped limit, normalized language, uppercased country,
trimmed proximity bias): a lookup that finds a cache entry younger than the
24-hour window returns the cached payload without an upstream call and
leaves the cache untouched; a lookup that finds no entry, or only an entry
at least 24 hours old, makes a fresh upstream call and — when the call
succeeds — overwrites the cache entry in place with the fresh timestamp and
the transformed payload (on upstream failure it returns an empty list and
leaves the entry unchanged); consequently a second lookup within the window
after a successful refresh returns the same payload without a second
upstream call. -/
theorem places_cache_freshness
    (fetch fetch2 : UpstreamParams → Option (List GeoHit)) (username : Option String)
    (now now2 : ℤ) (cache : List CacheEntry)
    (qRaw : String) (limitRaw : ℤ) (langRaw countryRaw nearRaw : String)
    (hq : pyStrip qRaw ≠ "") :
    (∀ entry,
      cacheFind cache (normPlacesKey qRaw limitRaw langRaw countryRaw nearRaw) = some entry →
      now - entry.ts < 86400 →
      places_autocomplete fetch username now cache qRaw limitRaw langRaw countryRaw nearRaw =
        ⟨.ok entry.data, false, none, cache⟩) ∧
    (∀ user,
      username = some user →
      (cacheFind cache (normPlacesKey qRaw limitRaw langRaw countryRaw nearRaw) = none ∨
        ∃ entry, cacheFind cache (normPlacesKey qRaw limitRaw langRaw countryRaw nearRaw) =
          some entry ∧ ¬(now - entry.ts < 86400)) →
      (∀ hits,
        fetch (placesParams (normPlacesKey qRaw limitRaw langRaw countryRaw nearRaw) user) =
          some hits →
        places_autocomplete fetch username now cache qRaw limitRaw langRaw countryRaw nearRaw =
          ⟨.ok (transformHits (normPlacesKey qRaw limitRaw langRaw countryRaw nearRaw).lang hits),
           true,
           some (placesParams (normPlacesKey qRaw limitRaw langRaw countryRaw nearRaw) user),
           cacheUpsert cache (normPlacesKey qRaw limitRaw langRaw countryRaw nearRaw) now
             (transformHits (normPlacesKey qRaw limitRaw langRaw countryRaw nearRaw).lang hits)⟩) ∧
      (fetch (placesParams (normPlacesKey qRaw limitRaw langRaw countryRaw nearRaw) user) =
          none →
        places_autocomplete fetch username now cache qRaw limitRaw langRaw countryRaw nearRaw =
          ⟨.ok [], true,
           some (placesParams (normPlacesKey qRaw limitRaw langRaw countryRaw nearRaw) user),
           cache⟩)) ∧
    (∀ user hits,
      username = some user →
      (cacheFind cache (normPlacesKey qRaw limitRaw langRaw countryRaw nearRaw) = none ∨
        ∃ entry, cacheFind cache (normPlacesKey qRaw limitRaw langRaw countryRaw nearRaw) =
          some entry ∧ ¬(now - entry.ts < 86400)) →
      fetch (placesParams (normPlacesKey qRaw limitRaw langRaw countryRaw nearRaw) user) =
        some hits →
      now2 - now < 86400 →
      places_autocomplete fetch2 username now2
          (places_autocomplete fetch username now cache qRaw limitRaw langRaw countryRaw
            nearRaw).cache qRaw limitRaw langRaw countryRaw nearRaw =
        ⟨.ok (transformHits (normPlacesKey qRaw limitRaw langRaw countryRaw nearRaw).lang hits),
         false, none,
         (places_autocomplete fetch username now cache qRaw limitRaw langRaw countryRaw
           nearRaw).cache⟩) := by
  refine ⟨?_, ?_, ?_⟩
  · intro entry hent hfresh
    exact places_fresh_hit fetch username now cache qRaw limitRaw langRaw countryRaw nearRaw
      entry hq hent hfresh
  · intro user huser hmiss
    subst huser
    exact ⟨fun hits hf =>
        places_miss_refresh fetch now cache qRaw limitRaw langRaw countryRaw nearRaw
          user hits hq hmiss hf,
      fun hf =>
        places_miss_fail fetch now cache qRaw limitRaw langRaw countryRaw nearRaw
          user hq hmiss hf⟩
  · intro user hits huser hmiss hf hwin
    subst huser
    have h1 := places_miss_refresh fetch now cache qRaw limitRaw langRaw countryRaw nearRaw
      user hits hq hmiss hf
    rw [h1]
    exact places_fresh_hit fetch2 (some user) now2 _ qRaw limitRaw langRaw countryRaw nearRaw
      ⟨normPlacesKey qRaw limitRaw langRaw countryRaw nearRaw, now,
        transformHits (normPlacesKey qRaw limitRaw langRaw countryRaw nearRaw).lang hits⟩
      hq (cacheFind_upsert _ _ _ _) hwin

def c9Hit : GeoHit :=
  { lat := some 32, lng := some 34, name := some "Tel Aviv",
    adminName1 := some "Tel Aviv District", countryName := some "Israel",
    countryCode := some "IL", geonameId := some 293397 }

def c9GoodFetch : UpstreamParams → Option (List GeoHit) := fun _ => some [c9Hit]

theorem places_cache_freshness_witness :
    places_autocomplete c9FailFetch (some "u") 2000
        (places_autocomplete c9GoodFetch (some "u") 1000 [] "tel" 8 "en" "IL" "").cache
        "tel" 8 "en" "IL" "" =
      ⟨.ok (transformHits (normPlacesKey "tel" 8 "en" "IL" "").lang [c9Hit]), false, none,
       (places_autocomplete c9GoodFetch (some "u") 1000 [] "tel" 8 "en" "IL" "").cache⟩ :=
  (places_cache_freshness c9GoodFetch c9FailFetch (some "u") 1000 2000 [] "tel" 8 "en" "IL" ""
      (by decide)).2.2 "u" [c9Hit] rfl (Or.inl rfl) rfl (by decide)
